import Mathlib

/-
Shallow embedding of the mcp-init repository (prashplus/mcp-init):
  - src/server/server.py : MCPServer.handle_request and its method handlers,
    plus run_stdio_server, the newline-delimited JSON dispatch loop;
  - src/client/client.py : MCPClient request-ID allocation and send_request.

Conventions of the embedding:
  - Decoded JSON values are the inductive `Json`; numbers are restricted to
    integers (the claims never involve floating point values).
  - A Python dict decoded from JSON is a list of key/value pairs with unique
    keys; `lookupField` is `dict.get` returning `none` when the key is absent.
  - Python `None` and JSON `null` both print as "None" in f-strings; on a
    response, an `id` of `none` denotes JSON null (Python None), which is what
    `request.get("id")` yields both for an absent and for a null id field.
  - Exceptions are `Except String`: a handler step that would raise in Python
    (attribute access on a non-dict, the evaluator on bad input) returns
    `Except.error msg`; the try/except of handle_request is the match in
    `handle_request` below.
  - Host-system effects (datetime.datetime.now, platform.*) are supplied by an
    `Env` record, since they are inputs from the operating system.
-/

namespace Mcp

/-- A decoded JSON value, as produced by json.loads; numbers are modelled as
integers (no claim involves non-integer numerics). -/
inductive Json where
  | null : Json
  | bool : Bool → Json
  | num : Int → Json
  | str : String → Json
  | arr : List Json → Json
  | obj : List (String × Json) → Json

/-- Python dict lookup (`d.get(key)`): first matching key, `none` if absent. -/
def lookupField : List (String × Json) → String → Option Json
  | [], _ => none
  | (k, v) :: fs, key => if k = key then some v else lookupField fs key

mutual

/-- Python repr() of a decoded JSON value (strings single-quoted, containers
rendered element-wise); used by str() on containers. -/
def pyRepr : Json → String
  | .null => "None"
  | .bool true => "True"
  | .bool false => "False"
  | .num n => toString n
  | .str s => "\x27" ++ s ++ "\x27"
  | .arr xs => "[" ++ pyReprElems xs ++ "]"
  | .obj fs => "\x7b" ++ pyReprFields fs ++ "\x7d"

/-- Comma-separated repr() of list elements. -/
def pyReprElems : List Json → String
  | [] => ""
  | [x] => pyRepr x
  | x :: y :: xs => pyRepr x ++ ", " ++ pyReprElems (y :: xs)

/-- Comma-separated repr() of dict entries. -/
def pyReprFields : List (String × Json) → String
  | [] => ""
  | [(k, v)] => "\x27" ++ k ++ "\x27: " ++ pyRepr v
  | (k, v) :: f :: fs => "\x27" ++ k ++ "\x27: " ++ pyRepr v ++ ", " ++ pyReprFields (f :: fs)

end

/-- Python str() of a decoded JSON value, as used by f-string interpolation. -/
def pyStr : Json → String
  | .str s => s
  | v => pyRepr v

/-- f-string interpolation of a value that may be Python None (absent key). -/
def pyStrOpt : Option Json → String
  | none => "None"
  | some v => pyStr v

/-- Python equality test of a decoded value against a string literal
(`v == "lit"`): true exactly when the value is that string. -/
def pyEqStr : Json → String → Bool
  | .str t, s => t = s
  | _, _ => false

/-- Python equality test against a string literal for a possibly-absent value
(`d.get(k) == "lit"`). -/
def optPyEqStr : Option Json → String → Bool
  | some v, s => pyEqStr v s
  | none, _ => false

/-- Whether a decoded value is a JSON object (a Python dict). -/
def Json.isObj : Json → Bool
  | .obj _ => true
  | _ => false

/-- The exception message modelling AttributeError from calling `.get` on a
decoded value that is not a dict. -/
def attrGetError : String := "AttributeError: object has no attribute get"

/-- Python `v.get(key)` where `v` came from decoded JSON: raises (models
AttributeError) unless `v` is a dict. -/
def dictGet (v : Json) (key : String) : Except String (Option Json) :=
  match v with
  | .obj fs => .ok (lookupField fs key)
  | _ => .error attrGetError

/-- Python `v.get(key, default)`: the default applies only when the key is
absent; raises unless `v` is a dict. -/
def dictGetD (v : Json) (key : String) (dflt : Json) : Except String Json :=
  match v with
  | .obj fs => .ok ((lookupField fs key).getD dflt)
  | _ => .error attrGetError

/-- An incoming request object: a decoded JSON dict, exactly as passed to
MCPServer.handle_request. -/
structure Request where
  fields : List (String × Json)

/-- Python `request.get(key)` on the request dict. -/
def Request.get (r : Request) (key : String) : Option Json :=
  lookupField r.fields key

/-- The structured error member of a JSON-RPC error response. -/
structure ErrorObj where
  code : Int
  message : String

/-- A response dict as built by the server: the `jsonrpc` tag, the `id` member
(`none` denotes JSON null), and the optional `result` and `error` members
(each handler literal in server.py sets one of the two). -/
structure Response where
  jsonrpc : String
  id : Option Json
  result : Option Json
  error : Option ErrorObj

/-- Host-system inputs used by the handlers: the formatted current time
(datetime.datetime.now().strftime) and the json.dumps of the platform
information dict. -/
structure Env where
  now : String
  systemInfoJson : String

/-! The calculate tool evaluates its expression with the host language's
generic expression evaluator (`eval(expression)` in handle_tool_call),
catching every exception. The model below, `pyEval`, covers the arithmetic
fragment: integer literals combined with +, -, * (binary and unary signs) and
parentheses, evaluated with Python's precedence; any other input — in
particular a statement such as "import os", an empty string, or an unbalanced
expression — is modelled as raising SyntaxError, whose str() is
`evalSyntaxError`. Division is outside the model (Python would produce a
float, which the embedding does not represent); no claim involves it. -/

/-- The str() of the SyntaxError raised by eval on non-expression input. -/
def evalSyntaxError : String := "invalid syntax (<string>, line 1)"

/-- Tokens of the arithmetic fragment accepted by the evaluator model. -/
inductive Tok where
  | num : Int → Tok
  | plus : Tok
  | minus : Tok
  | star : Tok
  | lparen : Tok
  | rparen : Tok

/-- Prepends the pending numeric literal, if any, to the token stream. -/
def flushNum (acc : Option Nat) (ts : List Tok) : List Tok :=
  match acc with
  | none => ts
  | some n => Tok.num (Int.ofNat n) :: ts

/-- One-pass tokenizer loop for the arithmetic fragment; `acc` is the run of
decimal digits currently being read. Any unexpected character is a syntax
failure, as eval raises SyntaxError on non-arithmetic input. -/
def lexLoop : List Char → Option Nat → Except String (List Tok)
  | [], acc => .ok (flushNum acc [])
  | c :: cs, acc =>
    if c.isDigit then lexLoop cs (some ((acc.getD 0) * 10 + (c.toNat - 48)))
    else do
      let rest ←
        (if c = ' ' then lexLoop cs none
         else if c = '+' then do pure (Tok.plus :: (← lexLoop cs none))
         else if c = '-' then do pure (Tok.minus :: (← lexLoop cs none))
         else if c = '*' then do pure (Tok.star :: (← lexLoop cs none))
         else if c = '(' then do pure (Tok.lparen :: (← lexLoop cs none))
         else if c = ')' then do pure (Tok.rparen :: (← lexLoop cs none))
         else .error evalSyntaxError)
      pure (flushNum acc rest)

/-- Tokenizer for the arithmetic fragment. -/
def lexArith (cs : List Char) : Except String (List Tok) :=
  lexLoop cs none

/-- Pending operators of the precedence evaluator: binary +, -, * and the
unary signs. -/
inductive POp where
  | add : POp
  | sub : POp
  | mul : POp
  | neg : POp
  | pos : POp
  | paren : POp
  deriving DecidableEq

/-- Precedence: * binds tighter than + and -, unary signs tighter still. -/
def POp.prec : POp → Nat
  | .add => 1
  | .sub => 1
  | .mul => 2
  | .neg => 3
  | .pos => 3
  | .paren => 0

/-- Applies one pending operator to the value stack. -/
def applyOp (op : POp) (vals : List Int) : Except String (List Int) :=
  match op, vals with
  | .add, a :: b :: rest => .ok ((b + a) :: rest)
  | .sub, a :: b :: rest => .ok ((b - a) :: rest)
  | .mul, a :: b :: rest => .ok ((b * a) :: rest)
  | .neg, a :: rest => .ok ((-a) :: rest)
  | .pos, a :: rest => .ok (a :: rest)
  | _, _ => .error evalSyntaxError

/-- Pops and applies pending operators of precedence at least `p`, stopping at
an open parenthesis. -/
def popOps (p : Nat) (vals : List Int) (ops : List POp) :
    Except String (List Int × List POp) :=
  match ops with
  | [] => .ok (vals, [])
  | op :: rest =>
    if op = POp.paren then .ok (vals, op :: rest)
    else if p ≤ op.prec then do popOps p (← applyOp op vals) rest
    else .ok (vals, op :: rest)

/-- Pops pending operators up to and including the matching open parenthesis. -/
def popToParen (vals : List Int) (ops : List POp) :
    Except String (List Int × List POp) :=
  match ops with
  | [] => .error evalSyntaxError
  | op :: rest =>
    if op = POp.paren then .ok (vals, rest)
    else do popToParen (← applyOp op vals) rest

/-- Precedence-climbing evaluation of the token stream; `expectOperand` is
true when the next token must start an operand (so that - and + are unary). -/
def evalToks : List Tok → List Int → List POp → Bool → Except String Int
  | [], vals, ops, expectOperand =>
    if expectOperand then .error evalSyntaxError
    else do
      match (← popOps 0 vals ops) with
      | ([v], []) => .ok v
      | _ => .error evalSyntaxError
  | Tok.num n :: ts, vals, ops, expectOperand =>
    if expectOperand then evalToks ts (n :: vals) ops false
    else .error evalSyntaxError
  | Tok.plus :: ts, vals, ops, expectOperand =>
    if expectOperand then evalToks ts vals (POp.pos :: ops) true
    else do
      let (vals2, ops2) ← popOps (POp.prec POp.add) vals ops
      evalToks ts vals2 (POp.add :: ops2) true
  | Tok.minus :: ts, vals, ops, expectOperand =>
    if expectOperand then evalToks ts vals (POp.neg :: ops) true
    else do
      let (vals2, ops2) ← popOps (POp.prec POp.sub) vals ops
      evalToks ts vals2 (POp.sub :: ops2) true
  | Tok.star :: ts, vals, ops, expectOperand =>
    if expectOperand then .error evalSyntaxError
    else do
      let (vals2, ops2) ← popOps (POp.prec POp.mul) vals ops
      evalToks ts vals2 (POp.mul :: ops2) true
  | Tok.lparen :: ts, vals, ops, expectOperand =>
    if expectOperand then evalToks ts vals (POp.paren :: ops) true
    else .error evalSyntaxError
  | Tok.rparen :: ts, vals, ops, expectOperand =>
    if expectOperand then .error evalSyntaxError
    else do
      let (vals2, ops2) ← popToParen vals ops
      evalToks ts vals2 ops2 false

/-- Model of Python `eval(s)` on the arithmetic fragment (see the note
above): evaluates integer arithmetic, raises `evalSyntaxError` otherwise. -/
def pyEval (s : String) : Except String Int := do
  evalToks (← lexArith s.toList) [] [] true

/-- The str() of the TypeError raised by eval when its argument is not a
string. -/
def evalTypeError : String := "eval() arg 1 must be a string, bytes or code object"

/-- The inner try of the calculate branch of handle_tool_call:
`str(eval(expression))`, with every exception caught and rendered as
"Error calculating: " followed by the str() of the exception. -/
def calcResult (expression : Json) : String :=
  match expression with
  | .str s =>
    match pyEval s with
    | .ok v => toString v
    | .error e => "Error calculating: " ++ e
  | _ => "Error calculating: " ++ evalTypeError

/-! Handlers of MCPServer (src/server/server.py). The Python method
handle_initialize is rendered as handleInitialize; all other source names are
kept. The catalogs built by setup_tools, setup_resources and setup_prompts
are the value lists below, in dict insertion order, since the list handlers
return `list(self.tools.values())` and so on. -/

/-- The values of the tools dict built by setup_tools: echo, calculate,
get_time, with their input schemas. -/
def toolsValues : List Json :=
  [Json.obj
    [("name", Json.str "echo"),
     ("description", Json.str "Echo back the input message"),
     ("inputSchema", Json.obj
       [("type", Json.str "object"),
        ("properties", Json.obj
          [("message", Json.obj
            [("type", Json.str "string"),
             ("description", Json.str "Message to echo back")])]),
        ("required", Json.arr [Json.str "message"])])],
   Json.obj
    [("name", Json.str "calculate"),
     ("description", Json.str "Perform basic mathematical calculations"),
     ("inputSchema", Json.obj
       [("type", Json.str "object"),
        ("properties", Json.obj
          [("expression", Json.obj
            [("type", Json.str "string"),
             ("description", Json.str
               "Mathematical expression to evaluate (e.g., \x272 + 2\x27, \x2710 * 5\x27)")])]),
        ("required", Json.arr [Json.str "expression"])])],
   Json.obj
    [("name", Json.str "get_time"),
     ("description", Json.str "Get current date and time"),
     ("inputSchema", Json.obj
       [("type", Json.str "object"),
        ("properties", Json.obj []),
        ("required", Json.arr [])])]]

/-- The values of the resources dict built by setup_resources. -/
def resourcesValues : List Json :=
  [Json.obj
    [("uri", Json.str "resource://greeting"),
     ("name", Json.str "Greeting Message"),
     ("description", Json.str "A simple greeting message"),
     ("mimeType", Json.str "text/plain")],
   Json.obj
    [("uri", Json.str "resource://system_info"),
     ("name", Json.str "System Information"),
     ("description", Json.str "Basic system information"),
     ("mimeType", Json.str "application/json")]]

/-- The values of the prompts dict built by setup_prompts. -/
def promptsValues : List Json :=
  [Json.obj
    [("name", Json.str "helpful_assistant"),
     ("description", Json.str "A helpful assistant prompt"),
     ("arguments", Json.arr
       [Json.obj
         [("name", Json.str "topic"),
          ("description", Json.str "The topic to be helpful about"),
          ("required", Json.bool false)]])]]

/-- MCPServer.handle_initialize: the static initialization result. -/
def handleInitialize (request_id : Option Json) (_params : Json) : Response :=
  { jsonrpc := "2.0", id := request_id,
    result := some (Json.obj
      [("protocolVersion", Json.str "2024-11-05"),
       ("capabilities", Json.obj
         [("tools", Json.obj []),
          ("resources", Json.obj []),
          ("prompts", Json.obj [])]),
       ("serverInfo", Json.obj
         [("name", Json.str "tutorial-mcp-server"),
          ("version", Json.str "1.0.0")])]),
    error := none }

/-- MCPServer.handle_tools_list. -/
def handle_tools_list (request_id : Option Json) : Response :=
  { jsonrpc := "2.0", id := request_id,
    result := some (Json.obj [("tools", Json.arr toolsValues)]),
    error := none }

/-- The single success return at the end of handle_tool_call, wrapping the
computed result string as text content. -/
def toolSuccess (request_id : Option Json) (result : String) : Response :=
  { jsonrpc := "2.0", id := request_id,
    result := some (Json.obj
      [("content", Json.arr
        [Json.obj [("type", Json.str "text"), ("text", Json.str result)]])]),
    error := none }

/-- MCPServer.handle_tool_call: reads params["name"] and
params["arguments"] (default empty dict), branches on the tool name, and
returns the -32602 error for an unknown tool. -/
def handle_tool_call (env : Env) (request_id : Option Json) (params : Json) :
    Except String Response :=
  match dictGet params "name", dictGetD params "arguments" (Json.obj []) with
  | .ok tool_name, .ok arguments =>
    if optPyEqStr tool_name "echo" then
      match dictGetD arguments "message" (Json.str "") with
      | .ok message => .ok (toolSuccess request_id ("Echo: " ++ pyStr message))
      | .error e => .error e
    else if optPyEqStr tool_name "calculate" then
      match dictGetD arguments "expression" (Json.str "") with
      | .ok expression => .ok (toolSuccess request_id (calcResult expression))
      | .error e => .error e
    else if optPyEqStr tool_name "get_time" then
      .ok (toolSuccess request_id env.now)
    else
      .ok { jsonrpc := "2.0", id := request_id, result := none,
            error := some { code := -32602,
                            message := "Unknown tool: " ++ pyStrOpt tool_name } }
  | .error e, _ => .error e
  | _, .error e => .error e

/-- MCPServer.handle_resources_list. -/
def handle_resources_list (request_id : Option Json) : Response :=
  { jsonrpc := "2.0", id := request_id,
    result := some (Json.obj [("resources", Json.arr resourcesValues)]),
    error := none }

/-- The success return of handle_resource_read; the mimeType mirrors the
conditional expression in the source. -/
def resourceSuccess (request_id : Option Json) (uri : Json) (content : String) :
    Response :=
  { jsonrpc := "2.0", id := request_id,
    result := some (Json.obj
      [("contents", Json.arr
        [Json.obj
          [("uri", uri),
           ("mimeType",
             if pyEqStr uri "resource://greeting" then Json.str "text/plain"
             else Json.str "application/json"),
           ("text", Json.str content)]])]),
    error := none }

/-- MCPServer.handle_resource_read: reads params["uri"] (default empty
string), branches on the two known URIs, and returns the -32602 error for an
unknown resource. -/
def handle_resource_read (env : Env) (request_id : Option Json) (params : Json) :
    Except String Response :=
  match dictGetD params "uri" (Json.str "") with
  | .ok uri =>
    if pyEqStr uri "resource://greeting" then
      .ok (resourceSuccess request_id uri "Hello! Welcome to the MCP Tutorial Server!")
    else if pyEqStr uri "resource://system_info" then
      .ok (resourceSuccess request_id uri env.systemInfoJson)
    else
      .ok { jsonrpc := "2.0", id := request_id, result := none,
            error := some { code := -32602,
                            message := "Unknown resource: " ++ pyStr uri } }
  | .error e => .error e

/-- MCPServer.handle_prompts_list. -/
def handle_prompts_list (request_id : Option Json) : Response :=
  { jsonrpc := "2.0", id := request_id,
    result := some (Json.obj [("prompts", Json.arr promptsValues)]),
    error := none }

/-- MCPServer.handle_prompt_get: reads params["name"] and params["arguments"]
(default empty dict); for helpful_assistant renders the prompt with topic
defaulting to "general assistance", otherwise returns the -32602 error. -/
def handle_prompt_get (request_id : Option Json) (params : Json) :
    Except String Response :=
  match dictGet params "name", dictGetD params "arguments" (Json.obj []) with
  | .ok prompt_name, .ok arguments =>
    if optPyEqStr prompt_name "helpful_assistant" then
      match dictGetD arguments "topic" (Json.str "general assistance") with
      | .ok topic => .ok
        { jsonrpc := "2.0", id := request_id,
          result := some (Json.obj
            [("description", Json.str ("Helpful assistant prompt for " ++ pyStr topic)),
             ("messages", Json.arr
               [Json.obj
                 [("role", Json.str "system"),
                  ("content", Json.obj
                    [("type", Json.str "text"),
                     ("text", Json.str
                       ("You are a helpful assistant specialized in " ++ pyStr topic ++
                        ". Please provide clear, accurate, and helpful responses."))])]])]),
          error := none }
      | .error e => .error e
    else
      .ok { jsonrpc := "2.0", id := request_id, result := none,
            error := some { code := -32602,
                            message := "Unknown prompt: " ++ pyStrOpt prompt_name } }
  | .error e, _ => .error e
  | _, .error e => .error e

/-- The body of the try block of MCPServer.handle_request: the if/elif
dispatch on the method name, including the -32601 else branch; a raising
handler step surfaces as `Except.error`. -/
def dispatchCore (env : Env) (request : Request) : Except String Response :=
  let method := Request.get request "method"
  let params := (Request.get request "params").getD (Json.obj [])
  let request_id := Request.get request "id"
  if optPyEqStr method "initialize" then .ok (handleInitialize request_id params)
  else if optPyEqStr method "tools/list" then .ok (handle_tools_list request_id)
  else if optPyEqStr method "tools/call" then handle_tool_call env request_id params
  else if optPyEqStr method "resources/list" then .ok (handle_resources_list request_id)
  else if optPyEqStr method "resources/read" then handle_resource_read env request_id params
  else if optPyEqStr method "prompts/list" then .ok (handle_prompts_list request_id)
  else if optPyEqStr method "prompts/get" then handle_prompt_get request_id params
  else
    .ok { jsonrpc := "2.0", id := request_id, result := none,
          error := some { code := -32601,
                          message := "Method not found: " ++ pyStrOpt method } }

/-- MCPServer.handle_request: the dispatch wrapped in try/except — any
exception from a handler becomes the -32603 Internal error response. -/
def handle_request (env : Env) (request : Request) : Response :=
  match dispatchCore env request with
  | .ok response => response
  | .error e =>
    { jsonrpc := "2.0", id := Request.get request "id", result := none,
      error := some { code := -32603, message := "Internal error: " ++ e } }

/-- One line read by run_stdio_server, classified by what the loop body does
with it before reaching handle_request: a whitespace-only line (skipped by
the `if not line.strip()` test), a line on which json.loads raises
JSONDecodeError (logged, loop continues), or a decoded request object. -/
inductive StdinLine where
  | blank : StdinLine
  | malformed : String → StdinLine
  | decoded : Request → StdinLine

/-- The loop of run_stdio_server over the sequence of inbound lines: blank
lines and JSON-decode failures produce no response and the loop continues;
every decoded request produces exactly the handle_request response, printed
to stdout. -/
def run_stdio_server (env : Env) : List StdinLine → List Response
  | [] => []
  | StdinLine.blank :: rest => run_stdio_server env rest
  | StdinLine.malformed _ :: rest => run_stdio_server env rest
  | StdinLine.decoded request :: rest =>
    handle_request env request :: run_stdio_server env rest

/-! Client model (src/client/client.py): the request-ID counter and the
request object built by send_request. The field isInit models
self.initialized, connected models `self.process is not None`. -/

/-- MCPClient state: the request_id counter, whether a server subprocess is
attached, and whether the initialize handshake completed. -/
structure MCPClient where
  request_id : Nat
  connected : Bool
  isInit : Bool

/-- MCPClient.__init__: counter 0, no process, not initialized. -/
def MCPClient.new : MCPClient :=
  { request_id := 0, connected := false, isInit := false }

/-- MCPClient.get_next_id: increments self.request_id and returns it. -/
def get_next_id (c : MCPClient) : Nat × MCPClient :=
  (c.request_id + 1, { c with request_id := c.request_id + 1 })

/-- Python truthiness of the optional params argument of send_request
(`if params:`): None, and empty or zero-like values, are falsy. -/
def pyTruthy : Option Json → Bool
  | none => false
  | some .null => false
  | some (.bool b) => b
  | some (.num n) => n ≠ 0
  | some (.str s) => s ≠ ""
  | some (.arr xs) => !xs.isEmpty
  | some (.obj fs) => !fs.isEmpty

/-- MCPClient.send_request up to the write: raises when no process is
attached (before consuming an ID), otherwise allocates the next ID and builds
the request dict, appending the params member only when params is truthy.
The response read that follows never touches the counter, so the returned
state is the client state regardless of response, timeout or disconnection. -/
def send_request (c : MCPClient) (method : String) (params : Option Json) :
    Except String (Request × MCPClient) :=
  if c.connected = false then .error "Not connected to server"
  else
    let (rid, c2) := get_next_id c
    let base := [("jsonrpc", Json.str "2.0"), ("id", Json.num (Int.ofNat rid)),
                 ("method", Json.str method)]
    .ok (⟨if pyTruthy params then base ++ [("params", params.getD Json.null)] else base⟩, c2)

/-- MCPClient.disconnect: terminates the process and clears the initialized
flag; the request_id counter is not reset. -/
def disconnect (c : MCPClient) : MCPClient :=
  { c with connected := false, isInit := false }

/-- The request IDs produced by n successive get_next_id calls from state c. -/
def nextIds (c : MCPClient) : Nat → List Nat
  | 0 => []
  | n + 1 =>
    let (i, c2) := get_next_id c
    i :: nextIds c2 n

/-! Definitions formalizing the vocabulary of the specification claims. -/

/-- The seven method names registered in the dispatch of handle_request. -/
def registeredMethods : List String :=
  ["initialize", "tools/list", "tools/call", "resources/list", "resources/read",
   "prompts/list", "prompts/get"]

/-- Whether the method member of a request matches a registered method. -/
def isRegisteredMethod (m : Option Json) : Bool :=
  registeredMethods.any (fun s => optPyEqStr m s)

/-- Well-formedness of a request for its method, formalizing "well-formed
params": the method is registered and, where the handler reads params, params
is an object naming a known tool/resource/prompt with an object-typed
arguments member where one is read. -/
def wellFormedRequest (request : Request) : Bool :=
  let method := Request.get request "method"
  let params := (Request.get request "params").getD (Json.obj [])
  if optPyEqStr method "initialize" then true
  else if optPyEqStr method "tools/list" then true
  else if optPyEqStr method "tools/call" then
    match params with
    | .obj fs =>
      ((lookupField fs "arguments").getD (Json.obj [])).isObj &&
      (optPyEqStr (lookupField fs "name") "echo" ||
       optPyEqStr (lookupField fs "name") "calculate" ||
       optPyEqStr (lookupField fs "name") "get_time")
    | _ => false
  else if optPyEqStr method "resources/list" then true
  else if optPyEqStr method "resources/read" then
    match params with
    | .obj fs =>
      pyEqStr ((lookupField fs "uri").getD (Json.str "")) "resource://greeting" ||
      pyEqStr ((lookupField fs "uri").getD (Json.str "")) "resource://system_info"
    | _ => false
  else if optPyEqStr method "prompts/list" then true
  else if optPyEqStr method "prompts/get" then
    match params with
    | .obj fs =>
      ((lookupField fs "arguments").getD (Json.obj [])).isObj &&
      optPyEqStr (lookupField fs "name") "helpful_assistant"
    | _ => false
  else false

/-- The shape every server response must have: the protocol tag and exactly
one of the result and error members (result present iff error absent),
carrying the given id. -/
def GoodResp (rid : Option Json) (r : Response) : Prop :=
  r.jsonrpc = "2.0" ∧ ((∃ v, r.result = some v) ↔ r.error = none) ∧ r.id = rid

/-- A fixed environment for concrete evaluations. -/
def sampleEnv : Env :=
  { now := "2024-01-01 00:00:00", systemInfoJson := "platform-info" }

/-- A concrete tools/list request. -/
def reqToolsList : Request :=
  ⟨[("jsonrpc", Json.str "2.0"), ("id", Json.num 7), ("method", Json.str "tools/list")]⟩

/-- A concrete request with an unregistered method. -/
def reqUnknownMethod : Request :=
  ⟨[("jsonrpc", Json.str "2.0"), ("id", Json.num 2), ("method", Json.str "foo/bar")]⟩

/-- A concrete tools/call request whose params member is not an object, so
the handler raises inside the try of handle_request. -/
def reqBadParams : Request :=
  ⟨[("jsonrpc", Json.str "2.0"), ("id", Json.num 9), ("method", Json.str "tools/call"),
    ("params", Json.num 3)]⟩

/-- Scenario 2 of the spec: calculate on "10 + 5 * 2". -/
def reqCalcArith : Request :=
  ⟨[("jsonrpc", Json.str "2.0"), ("id", Json.num 2), ("method", Json.str "tools/call"),
    ("params", Json.obj
      [("name", Json.str "calculate"),
       ("arguments", Json.obj [("expression", Json.str "10 + 5 * 2")])])]⟩

/-- Scenario 3 of the spec: calculate on "import os". -/
def reqCalcImport : Request :=
  ⟨[("jsonrpc", Json.str "2.0"), ("id", Json.num 3), ("method", Json.str "tools/call"),
    ("params", Json.obj
      [("name", Json.str "calculate"),
       ("arguments", Json.obj [("expression", Json.str "import os")])])]⟩

/-- An echo call whose arguments omit the required "message". -/
def reqEchoNoMessage : Request :=
  ⟨[("jsonrpc", Json.str "2.0"), ("id", Json.num 6), ("method", Json.str "tools/call"),
    ("params", Json.obj [("name", Json.str "echo"), ("arguments", Json.obj [])])]⟩

/-- A calculate call whose arguments omit the required "expression". -/
def reqCalcNoExpression : Request :=
  ⟨[("jsonrpc", Json.str "2.0"), ("id", Json.num 12), ("method", Json.str "tools/call"),
    ("params", Json.obj [("name", Json.str "calculate"), ("arguments", Json.obj [])])]⟩

/-- A tools/call naming an unknown tool. -/
def reqUnknownTool : Request :=
  ⟨[("jsonrpc", Json.str "2.0"), ("id", Json.num 4), ("method", Json.str "tools/call"),
    ("params", Json.obj [("name", Json.str "nonexistent")])]⟩

/-- Scenario 4 of the spec: resources/read of an unknown URI. -/
def reqUnknownResource : Request :=
  ⟨[("jsonrpc", Json.str "2.0"), ("id", Json.num 5), ("method", Json.str "resources/read"),
    ("params", Json.obj [("uri", Json.str "resource://unknown")])]⟩

/-- A prompts/get naming an unknown prompt. -/
def reqUnknownPrompt : Request :=
  ⟨[("jsonrpc", Json.str "2.0"), ("id", Json.num 8), ("method", Json.str "prompts/get"),
    ("params", Json.obj [("name", Json.str "other")])]⟩

/-- A connected, initialized client with a fresh counter. -/
def clientW : MCPClient := { request_id := 0, connected := true, isInit := true }

/-- The request send_request builds for the first call on clientW. -/
def reqW : Request :=
  ⟨[("jsonrpc", Json.str "2.0"), ("id", Json.num 1), ("method", Json.str "tools/list")]⟩

/-- The client state after that first send_request. -/
def clientW2 : MCPClient := { request_id := 1, connected := true, isInit := true }

/-! Helper lemmas. -/

theorem optPyEqStr_str (t s : String) :
    optPyEqStr (some (Json.str t)) s = decide (t = s) := rfl

theorem optPyEqStr_eq_some {m : Option Json} {s : String}
    (h : optPyEqStr m s = true) : m = some (Json.str s) := by
  cases m with
  | none => simp [optPyEqStr] at h
  | some v => cases v <;> simp_all [optPyEqStr, pyEqStr]

theorem pyEqStr_eq {v : Json} {s : String} (h : pyEqStr v s = true) :
    v = Json.str s := by
  cases v <;> simp_all [pyEqStr]

theorem isObj_exists {v : Json} (h : v.isObj = true) :
    ∃ fs, v = Json.obj fs := by
  cases v <;> simp_all [Json.isObj]

theorem handle_tool_call_ok {env : Env} {rid : Option Json} {params : Json}
    {r : Response} (h : handle_tool_call env rid params = .ok r) :
    GoodResp rid r := by
  unfold handle_tool_call at h
  repeat' split at h
  all_goals first
  | (cases h; simp [GoodResp, toolSuccess])
  | simp_all [GoodResp, toolSuccess]

theorem handle_resource_read_ok {env : Env} {rid : Option Json} {params : Json}
    {r : Response} (h : handle_resource_read env rid params = .ok r) :
    GoodResp rid r := by
  unfold handle_resource_read at h
  repeat' split at h
  all_goals first
  | (cases h; simp [GoodResp, resourceSuccess])
  | simp_all [GoodResp, resourceSuccess]

theorem handle_prompt_get_ok {rid : Option Json} {params : Json}
    {r : Response} (h : handle_prompt_get rid params = .ok r) :
    GoodResp rid r := by
  unfold handle_prompt_get at h
  repeat' split at h
  all_goals first
  | (cases h; simp [GoodResp])
  | simp_all [GoodResp]

theorem dispatchCore_ok {env : Env} {request : Request} {r : Response}
    (h : dispatchCore env request = .ok r) :
    GoodResp (Request.get request "id") r := by
  simp only [dispatchCore] at h
  split at h
  · cases h; simp [GoodResp, handleInitialize]
  · split at h
    · cases h; simp [GoodResp, handle_tools_list]
    · split at h
      · exact handle_tool_call_ok h
      · split at h
        · cases h; simp [GoodResp, handle_resources_list]
        · split at h
          · exact handle_resource_read_ok h
          · split at h
            · cases h; simp [GoodResp, handle_prompts_list]
            · split at h
              · exact handle_prompt_get_ok h
              · cases h; simp [GoodResp]

theorem handle_request_good (env : Env) (request : Request) :
    GoodResp (Request.get request "id") (handle_request env request) := by
  unfold handle_request
  cases hd : dispatchCore env request with
  | ok r => exact dispatchCore_ok hd
  | error e => simp [GoodResp]

/-! Claim theorems. -/

/-- C7: a line on which JSON decoding fails produces no response at all — the
loop output for (malformed :: rest) is exactly the output for rest, so the
loop is not terminated and the next line is processed. -/
theorem c7_malformed_line_skipped (env : Env) (raw : String)
    (rest : List StdinLine) :
    run_stdio_server env (StdinLine.malformed raw :: rest) =
      run_stdio_server env rest := rfl

/-- C8: every response handle_request produces, for every possible incoming
request object, carries jsonrpc "2.0" and has its result member present
exactly when its error member is absent — never both, never neither. -/
theorem c8_exactly_one_of_result_error (env : Env) (request : Request) :
    (handle_request env request).jsonrpc = "2.0" ∧
    ((∃ v, (handle_request env request).result = some v) ↔
      (handle_request env request).error = none) :=
  ⟨(handle_request_good env request).1, (handle_request_good env request).2.1⟩

/-- C10: the id of every produced response equals request.get("id"), on both
success and error paths; an Option-valued id of none models JSON null, which
is also what an absent id field yields, so a request with no id gets a
response with a null id. -/
theorem c10_id_equals_request_id (env : Env) (request : Request) :
    (handle_request env request).id = Request.get request "id" :=
  (handle_request_good env request).2.2

/-- C3: whenever the dispatched handler raises (dispatchCore yields an
exception), handle_request catches it and returns the -32603 response whose
message carries the failure description, with the request id; and the stdio
loop emits exactly that response and continues with the remaining lines, so
a failing request never terminates the dispatch loop. -/
theorem c3_handler_failure_caught (env : Env) (request : Request) (e : String)
    (rest : List StdinLine) (h : dispatchCore env request = .error e) :
    handle_request env request =
      { jsonrpc := "2.0", id := Request.get request "id", result := none,
        error := some { code := -32603, message := "Internal error: " ++ e } } ∧
    run_stdio_server env (StdinLine.decoded request :: rest) =
      handle_request env request :: run_stdio_server env rest := by
  constructor
  · unfold handle_request
    rw [h]
  · rfl

/-- Witness for C3: the concrete request whose params member is the number 3
makes the tools/call handler raise AttributeError; handle_request returns the
-32603 response. -/
theorem c3_witness :
    dispatchCore sampleEnv reqBadParams = .error attrGetError ∧
    handle_request sampleEnv reqBadParams =
      { jsonrpc := "2.0", id := some (Json.num 9), result := none,
        error := some { code := -32603,
                        message := "Internal error: " ++ attrGetError } } :=
  ⟨rfl, (c3_handler_failure_caught sampleEnv reqBadParams attrGetError [] rfl).1⟩

/-- C2: a request whose method member matches none of the seven registered
methods gets the -32601 error response whose message names the unknown
method, carrying the request id. -/
theorem c2_unknown_method (env : Env) (request : Request)
    (h : isRegisteredMethod (Request.get request "method") = false) :
    handle_request env request =
      { jsonrpc := "2.0", id := Request.get request "id", result := none,
        error := some { code := -32601,
                        message := "Method not found: " ++
                          pyStrOpt (Request.get request "method") } } := by
  simp only [isRegisteredMethod, registeredMethods, List.any_cons, List.any_nil,
    Bool.or_eq_false_iff] at h
  obtain ⟨h1, h2, h3, h4, h5, h6, h7, -⟩ := h
  unfold handle_request
  simp only [dispatchCore, h1, h2, h3, h4, h5, h6, h7, Bool.false_eq_true,
    if_false]

/-- Witness for C2: the request with method "foo/bar" and id 2. -/
theorem c2_witness :
    isRegisteredMethod (Request.get reqUnknownMethod "method") = false ∧
    handle_request sampleEnv reqUnknownMethod =
      { jsonrpc := "2.0", id := some (Json.num 2), result := none,
        error := some { code := -32601,
                        message := "Method not found: foo/bar" } } :=
  ⟨rfl, c2_unknown_method sampleEnv reqUnknownMethod rfl⟩

/-- C4: a tools/call naming a tool outside the catalog, a resources/read with
a URI outside the catalog, and a prompts/get naming a prompt outside the
catalog each get the -32602 error response naming the unknown entry,
carrying the request id. -/
theorem c4_unknown_catalog_entries :
    (∀ (env : Env) (request : Request) (fs : List (String × Json)),
      Request.get request "method" = some (Json.str "tools/call") →
      (Request.get request "params").getD (Json.obj []) = Json.obj fs →
      optPyEqStr (lookupField fs "name") "echo" = false →
      optPyEqStr (lookupField fs "name") "calculate" = false →
      optPyEqStr (lookupField fs "name") "get_time" = false →
      handle_request env request =
        { jsonrpc := "2.0", id := Request.get request "id", result := none,
          error := some { code := -32602,
                          message := "Unknown tool: " ++
                            pyStrOpt (lookupField fs "name") } }) ∧
    (∀ (env : Env) (request : Request) (fs : List (String × Json)),
      Request.get request "method" = some (Json.str "resources/read") →
      (Request.get request "params").getD (Json.obj []) = Json.obj fs →
      pyEqStr ((lookupField fs "uri").getD (Json.str "")) "resource://greeting" = false →
      pyEqStr ((lookupField fs "uri").getD (Json.str "")) "resource://system_info" = false →
      handle_request env request =
        { jsonrpc := "2.0", id := Request.get request "id", result := none,
          error := some { code := -32602,
                          message := "Unknown resource: " ++
                            pyStr ((lookupField fs "uri").getD (Json.str "")) } }) ∧
    (∀ (env : Env) (request : Request) (fs : List (String × Json)),
      Request.get request "method" = some (Json.str "prompts/get") →
      (Request.get request "params").getD (Json.obj []) = Json.obj fs →
      optPyEqStr (lookupField fs "name") "helpful_assistant" = false →
      handle_request env request =
        { jsonrpc := "2.0", id := Request.get request "id", result := none,
          error := some { code := -32602,
                          message := "Unknown prompt: " ++
                            pyStrOpt (lookupField fs "name") } }) := by
  refine ⟨?_, ?_, ?_⟩
  · intro env request fs hm hp h1 h2 h3
    unfold handle_request
    simp only [dispatchCore, hm, hp, optPyEqStr_str, handle_tool_call,
      dictGet, dictGetD, h1, h2, h3]
    simp
  · intro env request fs hm hp h1 h2
    unfold handle_request
    simp only [dispatchCore, hm, hp, optPyEqStr_str, handle_resource_read,
      dictGetD, h1, h2]
    simp
  · intro env request fs hm hp h1
    unfold handle_request
    simp only [dispatchCore, hm, hp, optPyEqStr_str, handle_prompt_get,
      dictGet, dictGetD, h1]
    simp

/-- Witness for C4: the three concrete unknown-entry requests. -/
theorem c4_witness :
    handle_request sampleEnv reqUnknownTool =
      { jsonrpc := "2.0", id := some (Json.num 4), result := none,
        error := some { code := -32602, message := "Unknown tool: nonexistent" } } ∧
    handle_request sampleEnv reqUnknownResource =
      { jsonrpc := "2.0", id := some (Json.num 5), result := none,
        error := some { code := -32602,
                        message := "Unknown resource: resource://unknown" } } ∧
    handle_request sampleEnv reqUnknownPrompt =
      { jsonrpc := "2.0", id := some (Json.num 8), result := none,
        error := some { code := -32602, message := "Unknown prompt: other" } } :=
  ⟨c4_unknown_catalog_entries.1 sampleEnv reqUnknownTool
      [("name", Json.str "nonexistent")] rfl rfl rfl rfl rfl,
   c4_unknown_catalog_entries.2.1 sampleEnv reqUnknownResource
      [("uri", Json.str "resource://unknown")] rfl rfl rfl rfl,
   c4_unknown_catalog_entries.2.2 sampleEnv reqUnknownPrompt
      [("name", Json.str "other")] rfl rfl rfl⟩

/-- C1: every request with a registered method and well-formed params gets a
success response (result member present) whose id equals the request id. -/
theorem c1_registered_method_success (env : Env) (request : Request)
    (h : wellFormedRequest request = true) :
    (∃ v, (handle_request env request).result = some v) ∧
    (handle_request env request).id = Request.get request "id" := by
  refine ⟨?_, (handle_request_good env request).2.2⟩
  simp only [wellFormedRequest] at h
  unfold handle_request
  simp only [dispatchCore]
  split at h
  · rename_i hc
    simp [hc, handleInitialize]
  · rename_i hc1
    split at h
    · rename_i hc
      simp [hc1, hc, handle_tools_list]
    · rename_i hc2
      split at h
      · rename_i hc
        split at h
        · rename_i fs hfs
          rw [Bool.and_eq_true] at h
          obtain ⟨ha, hn⟩ := h
          obtain ⟨afs, hafs⟩ := isObj_exists ha
          simp only [Bool.or_eq_true] at hn
          rw [hfs]
          rcases hn with (hn | hn) | hn <;>
            (have hname := optPyEqStr_eq_some hn
             simp [hc1, hc2, hc, hname, optPyEqStr_str, handle_tool_call,
               dictGet, dictGetD, hafs, toolSuccess])
        · simp at h
      · rename_i hc3
        split at h
        · rename_i hc
          simp [hc1, hc2, hc3, hc, handle_resources_list]
        · rename_i hc4
          split at h
          · rename_i hc
            split at h
            · rename_i fs hfs
              simp only [Bool.or_eq_true] at h
              rw [hfs]
              rcases h with h | h <;>
                (have huri := pyEqStr_eq h
                 simp [hc1, hc2, hc3, hc4, hc, huri, pyEqStr,
                   handle_resource_read, dictGetD, resourceSuccess])
            · simp at h
          · rename_i hc5
            split at h
            · rename_i hc
              simp [hc1, hc2, hc3, hc4, hc5, hc, handle_prompts_list]
            · rename_i hc6
              split at h
              · rename_i hc
                split at h
                · rename_i fs hfs
                  rw [Bool.and_eq_true] at h
                  obtain ⟨ha, hn⟩ := h
                  obtain ⟨afs, hafs⟩ := isObj_exists ha
                  have hname := optPyEqStr_eq_some hn
                  rw [hfs]
                  simp [hc1, hc2, hc3, hc4, hc5, hc6, hc, hname,
                    optPyEqStr_str, handle_prompt_get, dictGet, dictGetD, hafs]
                · simp at h
              · simp at h

/-- Witness for C1: the tools/list request with id 7 is well-formed and gets
a success response with id 7. -/
theorem c1_witness :
    wellFormedRequest reqToolsList = true ∧
    ((∃ v, (handle_request sampleEnv reqToolsList).result = some v) ∧
      (handle_request sampleEnv reqToolsList).id = some (Json.num 7)) :=
  ⟨rfl, c1_registered_method_success sampleEnv reqToolsList rfl⟩

/-- C5 counterexample: the echo call whose arguments omit the required
"message" does NOT get a -32602 error response — the server returns a success
response with text "Echo: ", refuting the claim that a missing required
argument yields Invalid Params. -/
theorem c5_counterexample :
    (handle_request sampleEnv reqEchoNoMessage).error = none ∧
    (handle_request sampleEnv reqEchoNoMessage).result =
      some (Json.obj [("content", Json.arr
        [Json.obj [("type", Json.str "text"), ("text", Json.str "Echo: ")]])]) :=
  ⟨rfl, rfl⟩

/-- C5 amended: a tools/call omitting an argument declared required by the
schema is not rejected; the handler substitutes the empty-string default and
returns a success response — "Echo: " for echo, and for calculate the success
text "Error calculating: " followed by the evaluation failure (eval of the
empty string raises SyntaxError). -/
theorem c5_missing_argument_defaults :
    (∀ (env : Env) (request : Request) (fs afs : List (String × Json)),
      Request.get request "method" = some (Json.str "tools/call") →
      (Request.get request "params").getD (Json.obj []) = Json.obj fs →
      lookupField fs "name" = some (Json.str "echo") →
      (lookupField fs "arguments").getD (Json.obj []) = Json.obj afs →
      lookupField afs "message" = none →
      handle_request env request =
        toolSuccess (Request.get request "id") "Echo: ") ∧
    (∀ (env : Env) (request : Request) (fs afs : List (String × Json)),
      Request.get request "method" = some (Json.str "tools/call") →
      (Request.get request "params").getD (Json.obj []) = Json.obj fs →
      lookupField fs "name" = some (Json.str "calculate") →
      (lookupField fs "arguments").getD (Json.obj []) = Json.obj afs →
      lookupField afs "expression" = none →
      handle_request env request =
        toolSuccess (Request.get request "id")
          ("Error calculating: " ++ evalSyntaxError)) := by
  constructor
  · intro env request fs afs hm hp hname hargs hmsg
    unfold handle_request
    simp only [dispatchCore, hm, hp, optPyEqStr_str, handle_tool_call,
      dictGet, dictGetD, hname, hargs, hmsg]
    rfl
  · intro env request fs afs hm hp hname hargs hexpr
    unfold handle_request
    simp only [dispatchCore, hm, hp, optPyEqStr_str, handle_tool_call,
      dictGet, dictGetD, hname, hargs, hexpr]
    rfl

/-- Witness for the amended C5: the concrete echo and calculate calls with
empty arguments. -/
theorem c5_amended_witness :
    handle_request sampleEnv reqEchoNoMessage =
      toolSuccess (some (Json.num 6)) "Echo: " ∧
    handle_request sampleEnv reqCalcNoExpression =
      toolSuccess (some (Json.num 12)) ("Error calculating: " ++ evalSyntaxError) :=
  ⟨c5_missing_argument_defaults.1 sampleEnv reqEchoNoMessage
      [("name", Json.str "echo"), ("arguments", Json.obj [])] []
      rfl rfl rfl rfl rfl,
   c5_missing_argument_defaults.2 sampleEnv reqCalcNoExpression
      [("name", Json.str "calculate"), ("arguments", Json.obj [])] []
      rfl rfl rfl rfl rfl⟩

set_option maxRecDepth 8192 in
/-- C6: calculate on "10 + 5 * 2" succeeds with content text "20", and
calculate on "import os" succeeds with content text beginning
"Error calculating" (an extension of that literal) — the evaluator rejects
non-arithmetic input rather than executing it. -/
theorem c6_calculate_scenarios (env : Env) :
    handle_request env reqCalcArith = toolSuccess (some (Json.num 2)) "20" ∧
    handle_request env reqCalcImport =
      toolSuccess (some (Json.num 3)) ("Error calculating: " ++ evalSyntaxError) ∧
    (∃ rest, "Error calculating: " ++ evalSyntaxError = "Error calculating" ++ rest) :=
  ⟨rfl, rfl, ⟨": " ++ evalSyntaxError, rfl⟩⟩

/-- C9: request IDs of one client are 1, 2, 3, ... — n successive
get_next_id calls from any state yield the n consecutive integers after the
stored counter (so from a fresh client: 1..n, strictly increasing, no value
ever repeated); every successful send_request carries id counter+1 and
leaves the counter at counter+1; and disconnect does not reset the counter,
so an already-used ID is never issued again even after disconnection. -/
theorem c9_monotonic_request_ids :
    (∀ (c : MCPClient) (n : Nat),
      nextIds c n = List.range' (c.request_id + 1) n) ∧
    (∀ (c : MCPClient) (method : String) (params : Option Json)
        (req : Request) (c2 : MCPClient),
      send_request c method params = .ok (req, c2) →
      Request.get req "id" = some (Json.num (Int.ofNat (c.request_id + 1))) ∧
      c2.request_id = c.request_id + 1) ∧
    (∀ c : MCPClient, (disconnect c).request_id = c.request_id) := by
  refine ⟨?_, ?_, fun c => rfl⟩
  · intro c n
    induction n generalizing c with
    | zero => simp [nextIds, List.range']
    | succ n ih => simp [nextIds, get_next_id, List.range', ih]
  · intro c method params req c2 h
    unfold send_request at h
    split at h
    · simp at h
    · simp only [Except.ok.injEq, Prod.mk.injEq] at h
      obtain ⟨hreq, hc2⟩ := h
      subst hreq
      subst hc2
      constructor
      · cases hp : pyTruthy params <;>
          simp [Request.get, lookupField, get_next_id, hp]
      · simp [get_next_id]

/-- Witness for C9: the first send_request on a fresh connected client uses
id 1 and leaves the counter at 1. -/
theorem c9_witness :
    send_request clientW "tools/list" none = .ok (reqW, clientW2) ∧
    Request.get reqW "id" = some (Json.num 1) ∧
    clientW2.request_id = 1 :=
  ⟨rfl,
   (c9_monotonic_request_ids.2.1 clientW "tools/list" none reqW clientW2 rfl).1,
   (c9_monotonic_request_ids.2.1 clientW "tools/list" none reqW clientW2 rfl).2⟩

end Mcp
